import Mathlib

/-!
# Verification of the IncludeOS VirtioNet driver core

A shallow embedding of `src/drivers/virtionet.hpp` (the VirtioNet legacy
virtio network driver) together with models, faithful to the design
document, of the driver routines whose translation units are not part of
the repository snapshot (only their declarations appear in the header).

Machine integers are modelled as `Nat` with explicit `% 2^w` reductions at
the points where the C code truncates.
-/

namespace VirtioNet

/-! ## Header codec data model

The two packed header structs from `virtionet.hpp`.

`virtio_net_hdr` (lines 151-159): flags, gso_type (1 byte each), then
hdr_len, gso_size, csum_start, csum_offset (2 bytes each) — no
`num_buffers` field.

`virtio_net_hdr_nomerge` (lines 169-178): the same six fields followed by
a trailing 2-byte `num_buffers`.
-/

/-- The packed struct `virtio_net_hdr` of the source: six metadata fields,
no `num_buffers`. Fields are mathematical naturals; byte-width truncation
happens in the encoder, exactly where the packed C layout truncates. -/
structure virtio_net_hdr where
  flags : Nat
  gso_type : Nat
  hdr_len : Nat
  gso_size : Nat
  csum_start : Nat
  csum_offset : Nat
deriving Repr, DecidableEq

/-- The packed struct `virtio_net_hdr_nomerge` of the source: the six
common fields plus a trailing 2-byte `num_buffers`. -/
structure virtio_net_hdr_nomerge where
  flags : Nat
  gso_type : Nat
  hdr_len : Nat
  gso_size : Nat
  csum_start : Nat
  csum_offset : Nat
  num_buffers : Nat
deriving Repr, DecidableEq

/-- Little-endian byte pair of a 16-bit field, as laid down in guest
memory by the packed struct on x86. -/
def le16 (x : Nat) : List Nat :=
  [x % 256, x / 256 % 256]

/-- The byte image of a `virtio_net_hdr` value: the packed, padding-free
layout of the struct at lines 151-159 (1+1+2+2+2+2 bytes). -/
def encode_hdr (h : virtio_net_hdr) : List Nat :=
  [h.flags % 256, h.gso_type % 256]
    ++ le16 h.hdr_len ++ le16 h.gso_size
    ++ le16 h.csum_start ++ le16 h.csum_offset

/-- The byte image of a `virtio_net_hdr_nomerge` value: the packed layout
at lines 169-178, the six common fields followed by `num_buffers`. -/
def encode_hdr_nomerge (h : virtio_net_hdr_nomerge) : List Nat :=
  [h.flags % 256, h.gso_type % 256]
    ++ le16 h.hdr_len ++ le16 h.gso_size
    ++ le16 h.csum_start ++ le16 h.csum_offset
    ++ le16 h.num_buffers

/-- Forget the trailing `num_buffers`, keeping the six common fields. -/
def virtio_net_hdr_nomerge.common (h : virtio_net_hdr_nomerge) : virtio_net_hdr :=
  ⟨h.flags, h.gso_type, h.hdr_len, h.gso_size, h.csum_start, h.csum_offset⟩

/-- Modelled from the spec: the header codec's `decode` direction for the
short (10-byte) variant; the decoder itself is in a translation unit not
present in the snapshot. Reads the packed little-endian layout back into
the struct, rejecting byte sequences of the wrong length. -/
def decode_hdr (bs : List Nat) : Option virtio_net_hdr :=
  match bs with
  | [b0, b1, b2, b3, b4, b5, b6, b7, b8, b9] =>
    some ⟨b0, b1, b2 + 256 * b3, b4 + 256 * b5, b6 + 256 * b7, b8 + 256 * b9⟩
  | _ => none

/-- Modelled from the spec: the `decode` direction for the long (12-byte)
variant with the trailing `num_buffers`. -/
def decode_hdr_nomerge (bs : List Nat) : Option virtio_net_hdr_nomerge :=
  match bs with
  | [b0, b1, b2, b3, b4, b5, b6, b7, b8, b9, b10, b11] =>
    some ⟨b0, b1, b2 + 256 * b3, b4 + 256 * b5, b6 + 256 * b7, b8 + 256 * b9,
          b10 + 256 * b11⟩
  | _ => none

/-- Validity of metadata: every field fits its declared C width. -/
def valid_hdr (h : virtio_net_hdr) : Prop :=
  h.flags < 256 ∧ h.gso_type < 256 ∧ h.hdr_len < 65536 ∧
  h.gso_size < 65536 ∧ h.csum_start < 65536 ∧ h.csum_offset < 65536

/-- Validity for the long variant: additionally `num_buffers` fits 16 bits. -/
def valid_hdr_nomerge (h : virtio_net_hdr_nomerge) : Prop :=
  valid_hdr h.common ∧ h.num_buffers < 65536

instance (h : virtio_net_hdr) : Decidable (valid_hdr h) := by
  unfold valid_hdr; infer_instance

instance (h : virtio_net_hdr_nomerge) : Decidable (valid_hdr_nomerge h) := by
  unfold valid_hdr_nomerge; infer_instance

/-! ## Device facade state and capacity queries

`Virtio::Queue` is a collaborator consumed by the driver; the driver reads
its free-descriptor count (`num_free`) and its count of freshly used
incoming descriptors (`new_incoming`). The inline bodies of
`transmit_queue_available` and `receive_queue_waiting` are in the header
(lines 141-149) and are translated verbatim. -/

/-- The slice of `Virtio::Queue` state the capacity queries read. -/
structure Queue where
  num_free : Nat
  new_incoming : Nat
deriving Repr, DecidableEq

/-- The driver state the inline queries touch: its RX and TX virtqueues. -/
structure DriverState where
  rx_q : Queue
  tx_q : Queue
deriving Repr, DecidableEq

/-- `transmit_queue_available` (line 142-144): `tx_q.num_free() / 2`. -/
def transmit_queue_available (s : DriverState) : Nat :=
  s.tx_q.num_free / 2

/-- `receive_queue_waiting` (line 147-149): `rx_q.new_incoming() / 2`. -/
def receive_queue_waiting (s : DriverState) : Nat :=
  s.rx_q.new_incoming / 2

/-! ## Deferred-kick scheduler

The header declares `begin_deferred_kick`, the per-device flag
`bool deferred_kick = false` and the end-of-tick sweep
`handle_deferred_devices`; the bodies live in a translation unit outside
the snapshot, so they are modelled from the design document's contract:
`request_kick` is idempotent, setting the flag on the first call of a
tick and scheduling one flush; the flush issues a single notification and
clears the flag. -/

/-- The state the deferred-kick scheduler touches: the per-device flag and
a count of device notifications (kicks) actually issued. -/
structure KickState where
  deferred_kick : Bool
  notifications : Nat
deriving Repr, DecidableEq

/-- Modelled from the spec: `begin_deferred_kick` / `request_kick` (the
body is not in the snapshot). If no kick is scheduled, set the flag;
otherwise do nothing. No notification is issued here. -/
def request_kick (s : KickState) : KickState :=
  if s.deferred_kick then s else { s with deferred_kick := true }

/-- Modelled from the spec: the end-of-tick flush performed by
`handle_deferred_devices` for one device (the body is not in the
snapshot). If a kick is owed, issue exactly one notification and clear
the flag; otherwise do nothing. -/
def flush_tick (s : KickState) : KickState :=
  if s.deferred_kick then
    { deferred_kick := false, notifications := s.notifications + 1 }
  else s

/-- `n` consecutive `request_kick` calls within one tick. -/
def request_kickN : Nat → KickState → KickState
  | 0, s => s
  | n + 1, s => request_kickN n (request_kick s)

/-! ## Receive-buffer provisioning

`service_queues` re-provisions the RX virtqueue via `add_receive_buffer`
(header lines 210-212 and 227-228 declare them; the bodies are outside
the snapshot). Modelled from the design document: while the queue has
free descriptor slots, obtain a raw buffer from the external pool and
submit it to the available ring. -/

/-- The RX-provisioning slice of state: free descriptor slots of the RX
virtqueue, buffers available in the external pool, and buffers posted to
the device. -/
structure RxProvisionState where
  free_slots : Nat
  pool : Nat
  posted : Nat
deriving Repr, DecidableEq

/-- Modelled from the spec: the refill loop of `service_queues` calling
`add_receive_buffer` (bodies not in the snapshot). Each iteration takes
one buffer from the pool and fills one free descriptor slot; the loop
stops when the queue is full or the pool is exhausted. -/
def provision_loop : Nat → Nat → Nat → RxProvisionState
  | 0, p, k => ⟨0, p, k⟩
  | f + 1, 0, k => ⟨f + 1, 0, k⟩
  | f + 1, p + 1, k => provision_loop f p (k + 1)

/-- The refill loop entered on the current RX state. -/
def provision (s : RxProvisionState) : RxProvisionState :=
  provision_loop s.free_slots s.pool s.posted

/-- Modelled from the spec: the RX half of `service_queues` (body not in
the snapshot): harvesting `used` descriptors frees their slots, then the
refill loop runs. -/
def rx_service (used : Nat) (s : RxProvisionState) : RxProvisionState :=
  provision ⟨s.free_slots + used, s.pool, s.posted - used⟩

/-! ## Transmit path: backpressure FIFO and egress order

`transmit` (line 136), the pending chain `transmit_queue_` (line 241) and
`drop` (line 230) are declared in the header; their bodies are outside
the snapshot. Modelled from the design document: with free descriptor
slots and nothing pending, a packet is submitted at once; with no slot it
joins a bounded FIFO; if that FIFO is full the packet is dropped and the
drop counted. `service` drains completions and submits pending packets in
FIFO order. Packets are identified by `Nat` tags and slots counted in
packets (descriptor pairs). -/

/-- The transmit-path slice of state. `submitted` lists tags handed to
the device, oldest first; `pending` is the internal FIFO, oldest first;
`cap` bounds the FIFO; `drops` counts packets dropped when it is full. -/
structure TxState where
  free_slots : Nat
  pending : List Nat
  cap : Nat
  drops : Nat
  submitted : List Nat
deriving Repr, DecidableEq

/-- Modelled from the spec: `transmit` (body not in the snapshot). Submit
directly when a slot is free and nothing is pending; otherwise append to
the bounded pending FIFO; drop (counted) only when the FIFO is full. -/
def transmit (s : TxState) (p : Nat) : TxState :=
  if 0 < s.free_slots ∧ s.pending = [] then
    { s with free_slots := s.free_slots - 1, submitted := s.submitted ++ [p] }
  else if s.pending.length < s.cap then
    { s with pending := s.pending ++ [p] }
  else
    { s with drops := s.drops + 1 }

/-- A sequence of `transmit` calls, in the order offered. -/
def transmit_list (s : TxState) (ps : List Nat) : TxState :=
  ps.foldl transmit s

/-- Modelled from the spec: the TX half of `service_queues` (body not in
the snapshot). Completions free `freed` slots; then as many pending
packets as now fit are submitted, in FIFO order. -/
def tx_service (s : TxState) (freed : Nat) : TxState :=
  { free_slots := s.free_slots + freed - min (s.free_slots + freed) s.pending.length
    pending := s.pending.drop (min (s.free_slots + freed) s.pending.length)
    cap := s.cap
    drops := s.drops
    submitted := s.submitted ++ s.pending.take (min (s.free_slots + freed) s.pending.length) }

/-! ## RX harvest and malformed frames

`recv_packet` (line 234) and `drop` (line 230) are declared in the
header; the harvest loop's body is outside the snapshot. Modelled from
the design document: each used descriptor's header is read; a zero
payload length or a claimed length exceeding the buffer capacity marks a
corrupt frame, whose buffer is returned to the pool with nothing
delivered, and harvesting continues with the next descriptor. -/

/-- A used RX descriptor as seen at harvest: the payload length the
header claims and the capacity of the buffer backing it. -/
structure UsedDesc where
  len : Nat
  cap : Nat
deriving Repr, DecidableEq

/-- A harvested header is well formed when it claims a nonzero payload
that fits the buffer. -/
def desc_ok (d : UsedDesc) : Bool :=
  decide (0 < d.len ∧ d.len ≤ d.cap)

/-- Modelled from the spec: the RX harvest loop over the used ring
(body not in the snapshot). Returns the packets delivered upstream, in
harvest order, and the count of buffers discarded back to the pool. -/
def harvest : List UsedDesc → List UsedDesc × Nat
  | [] => ([], 0)
  | d :: ds =>
    let r := harvest ds
    if desc_ok d then (d :: r.1, r.2) else (r.1, r.2 + 1)

/-! ## Device configuration length

The `config` struct (lines 195-201) holds a 6-byte MAC, a 2-byte status
and, only meaningful under `VIRTIO_NET_F_MQ`, a 2-byte
`max_virtq_pairs`; the comment at line 203 fixes `_config_length` as
`sizeof(config)` under MQ and `sizeof(config) - sizeof(uint16_t)`
otherwise. `get_config`'s body is outside the snapshot. -/

/-- `sizeof(config)`: 6-byte MAC + 2-byte status + 2-byte
`max_virtq_pairs`, no padding (all members have alignment at most 2 and
lie at even offsets). -/
def sizeof_config : Nat := 6 + 2 + 2

/-- The feature-dependent `_config_length` (line 203-204): full record
size under `VIRTIO_NET_F_MQ`, two bytes shorter without it. -/
def config_length (mq : Bool) : Nat :=
  if mq then sizeof_config else sizeof_config - 2

/-- Modelled from the spec: the initialization-time consistency check in
`get_config` (body not in the snapshot). Given the negotiated MQ feature
and the configuration-space length the device exposes, initialization
succeeds with that length only when it matches `config_length`; otherwise
the driver refuses to come up. -/
def init_config (mq : Bool) (devlen : Nat) : Option Nat :=
  if devlen = config_length mq then some devlen else none

/-! ## Helper lemmas -/

/-- Reassembling a 16-bit value from its little-endian bytes. -/
theorem le16_reassemble (x : Nat) (hx : x < 65536) :
    x % 256 + 256 * (x / 256 % 256) = x := by
  have h : x / 256 < 256 := Nat.div_lt_of_lt_mul (by omega)
  rw [Nat.mod_eq_of_lt h, Nat.mod_add_div]

/-- `request_kick` leaves the flag set. -/
theorem request_kick_flag (s : KickState) :
    (request_kick s).deferred_kick = true := by
  unfold request_kick; split <;> simp_all

/-- `request_kick` on a state whose flag is already set changes nothing. -/
theorem request_kick_idem (s : KickState) (h : s.deferred_kick = true) :
    request_kick s = s := by
  unfold request_kick; simp [h]

/-- Any number of further `request_kick` calls after the flag is set
change nothing. -/
theorem request_kickN_of_flag (n : Nat) (s : KickState)
    (h : s.deferred_kick = true) :
    request_kickN n s = s := by
  induction n with
  | zero => rfl
  | succ n ih =>
    show request_kickN n (request_kick s) = s
    rw [request_kick_idem s h, ih]

/-- The provisioning loop with an adequate pool fills every free slot. -/
theorem provision_fills (f p k : Nat) (h : f ≤ p) :
    provision ⟨f, p, k⟩ = ⟨0, p - f, k + f⟩ := by
  show provision_loop f p k = _
  induction f generalizing p k with
  | zero => simp [provision_loop]
  | succ f ih =>
    cases p with
    | zero => omega
    | succ p =>
      show provision_loop f p (k + 1) = _
      rw [ih p (k + 1) (by omega)]
      simp only [RxProvisionState.mk.injEq]
      exact ⟨trivial, by omega, by omega⟩

/-- With no free slot and room in the pending FIFO, a sequence of
`transmit` calls appends every packet to the FIFO, in the offered order,
and changes nothing else. -/
theorem transmit_list_queued (s : TxState) (ps : List Nat)
    (hfree : s.free_slots = 0)
    (hcap : s.pending.length + ps.length ≤ s.cap) :
    transmit_list s ps = { s with pending := s.pending ++ ps } := by
  induction ps generalizing s with
  | nil => simp [transmit_list]
  | cons p rest ih =>
    show transmit_list (transmit s p) rest = _
    have hstep : transmit s p = { s with pending := s.pending ++ [p] } := by
      unfold transmit
      rw [if_neg (by simp [hfree]), if_pos (by simp at hcap ⊢; omega)]
    rw [hstep, ih]
    · simp
    · exact hfree
    · simp at hcap ⊢; omega

/-- The harvest loop delivers exactly the well-formed descriptors, in
order, and the deliveries plus the discards account for every used
descriptor. -/
theorem harvest_spec (ds : List UsedDesc) :
    (harvest ds).1 = ds.filter desc_ok ∧
    (harvest ds).1.length + (harvest ds).2 = ds.length := by
  induction ds with
  | nil => exact ⟨rfl, rfl⟩
  | cons d rest ih =>
    unfold harvest
    rcases h : desc_ok d <;>
      simp [List.filter, h, ih.1, ← ih.2] <;> omega

/-! ## The claims -/

/-- Claim C1 concerns which header variant carries `num_buffers`. In the
source it is the variant declared for the non-merge case,
`virtio_net_hdr_nomerge`, that carries the trailing `num_buffers` field
(its 12-byte image depends on `num_buffers`, with the field's bytes at
offsets 10-11), while the base `virtio_net_hdr` is the 10-byte image with
no such field — the opposite association to the claim's (and to Virtio
1.0 § 5.1.6.1, which the source comment quotes with the negation
inverted). -/
theorem num_buffers_sits_in_nomerge_variant :
    (encode_hdr ⟨0, 0, 0, 0, 0, 0⟩).length = 10 ∧
    (encode_hdr_nomerge ⟨0, 0, 0, 0, 0, 0, 7⟩).length = 12 ∧
    encode_hdr_nomerge ⟨0, 0, 0, 0, 0, 0, 7⟩ ≠
      encode_hdr_nomerge ⟨0, 0, 0, 0, 0, 0, 9⟩ ∧
    (encode_hdr_nomerge ⟨0, 0, 0, 0, 0, 0, 7⟩)[10]? = some 7 := by
  decide

/-- Claim C2: the transmit-capacity query returns the TX virtqueue's free
descriptor count divided by two, and the receive-waiting query returns
the RX virtqueue's new-incoming descriptor count divided by two, in every
driver state. -/
theorem capacity_queries_halved (s : DriverState) :
    transmit_queue_available s = s.tx_q.num_free / 2 ∧
    receive_queue_waiting s = s.rx_q.new_incoming / 2 :=
  ⟨rfl, rfl⟩

/-- Claim C3: for every valid metadata value, decoding the encoding gives
the value back, for both header variants. -/
theorem header_roundtrip (h : virtio_net_hdr) (g : virtio_net_hdr_nomerge)
    (hh : valid_hdr h) (hg : valid_hdr_nomerge g) :
    decode_hdr (encode_hdr h) = some h ∧
    decode_hdr_nomerge (encode_hdr_nomerge g) = some g := by
  obtain ⟨a, b, c, d, e, f⟩ := h
  obtain ⟨a2, b2, c2, d2, e2, f2, n2⟩ := g
  obtain ⟨h1, h2, h3, h4, h5, h6⟩ := hh
  obtain ⟨⟨g1, g2, g3, g4, g5, g6⟩, g7⟩ := hg
  constructor
  · show some (⟨a % 256, b % 256, c % 256 + 256 * (c / 256 % 256),
      d % 256 + 256 * (d / 256 % 256), e % 256 + 256 * (e / 256 % 256),
      f % 256 + 256 * (f / 256 % 256)⟩ : virtio_net_hdr) = _
    simp only [Option.some.injEq, virtio_net_hdr.mk.injEq]
    exact ⟨Nat.mod_eq_of_lt h1, Nat.mod_eq_of_lt h2, le16_reassemble c h3,
      le16_reassemble d h4, le16_reassemble e h5, le16_reassemble f h6⟩
  · show some (⟨a2 % 256, b2 % 256, c2 % 256 + 256 * (c2 / 256 % 256),
      d2 % 256 + 256 * (d2 / 256 % 256), e2 % 256 + 256 * (e2 / 256 % 256),
      f2 % 256 + 256 * (f2 / 256 % 256),
      n2 % 256 + 256 * (n2 / 256 % 256)⟩ : virtio_net_hdr_nomerge) = _
    simp only [Option.some.injEq, virtio_net_hdr_nomerge.mk.injEq]
    exact ⟨Nat.mod_eq_of_lt g1, Nat.mod_eq_of_lt g2, le16_reassemble c2 g3,
      le16_reassemble d2 g4, le16_reassemble e2 g5, le16_reassemble f2 g6,
      le16_reassemble n2 g7⟩

/-- Concrete round trip for both variants. -/
theorem header_roundtrip_witness :
    decode_hdr (encode_hdr ⟨1, 2, 300, 400, 500, 600⟩) =
      some ⟨1, 2, 300, 400, 500, 600⟩ ∧
    decode_hdr_nomerge (encode_hdr_nomerge ⟨1, 2, 300, 400, 500, 600, 3⟩) =
      some ⟨1, 2, 300, 400, 500, 600, 3⟩ :=
  header_roundtrip ⟨1, 2, 300, 400, 500, 600⟩ ⟨1, 2, 300, 400, 500, 600, 3⟩
    (by decide) (by decide)

/-- Claim C4: the encoded header is packed with no padding: the short
variant is exactly 10 bytes, the long variant exactly 12, the long image
is the short image of the common fields followed by the trailing 2-byte
`num_buffers`, and each field's bytes sit at the stated offsets (flags at
0, gso_type at 1, then the 2-byte fields at 2, 4, 6, 8). -/
theorem header_layout_packed (h : virtio_net_hdr) (g : virtio_net_hdr_nomerge) :
    (encode_hdr h).length = 10 ∧
    (encode_hdr_nomerge g).length = 12 ∧
    encode_hdr_nomerge g = encode_hdr g.common ++ le16 g.num_buffers ∧
    (encode_hdr h)[0]? = some (h.flags % 256) ∧
    (encode_hdr h)[1]? = some (h.gso_type % 256) ∧
    (encode_hdr h)[2]? = some (h.hdr_len % 256) ∧
    (encode_hdr h)[3]? = some (h.hdr_len / 256 % 256) ∧
    (encode_hdr h)[4]? = some (h.gso_size % 256) ∧
    (encode_hdr h)[6]? = some (h.csum_start % 256) ∧
    (encode_hdr h)[8]? = some (h.csum_offset % 256) :=
  ⟨rfl, rfl, rfl, rfl, rfl, rfl, rfl, rfl, rfl, rfl⟩

/-- Claim C5: starting a tick with the flag clear, the first of `n ≥ 1`
deferred-kick requests sets the flag, every further request within the
tick changes nothing, and the end-of-tick flush issues exactly one
notification and clears the flag. -/
theorem deferred_kick_once (n : Nat) (s : KickState) (hn : 1 ≤ n)
    (h0 : s.deferred_kick = false) :
    (request_kick s).deferred_kick = true ∧
    (∀ m, request_kickN m (request_kick s) = request_kick s) ∧
    flush_tick (request_kickN n s) =
      { deferred_kick := false, notifications := s.notifications + 1 } := by
  refine ⟨request_kick_flag s, fun m => request_kickN_of_flag m _ (request_kick_flag s), ?_⟩
  obtain ⟨n, rfl⟩ : ∃ m, n = m + 1 := ⟨n - 1, by omega⟩
  show flush_tick (request_kickN n (request_kick s)) = _
  rw [request_kickN_of_flag n _ (request_kick_flag s)]
  have hreq : request_kick s = { s with deferred_kick := true } := by
    unfold request_kick; simp [h0]
  rw [hreq]
  unfold flush_tick
  simp

/-- Three requests within one tick from a clear flag: one notification,
flag clear afterwards, and a later request in the same tick is a no-op. -/
theorem deferred_kick_once_witness :
    flush_tick (request_kickN 3 ⟨false, 0⟩) = ⟨false, 1⟩ ∧
    request_kickN 5 (request_kick ⟨false, 0⟩) = request_kick ⟨false, 0⟩ := by
  have h := deferred_kick_once 3 ⟨false, 0⟩ (by omega) rfl
  exact ⟨h.2.2, h.2.1 5⟩

/-- Claim C6: when the RX service routine returns and the pool could
satisfy every allocation request made during it (one request per free
slot, including the slots the harvest itself freed), the RX virtqueue has
zero free descriptor slots. -/
theorem rx_service_no_free_slots (used : Nat) (s : RxProvisionState)
    (h : s.free_slots + used ≤ s.pool) :
    (rx_service used s).free_slots = 0 := by
  unfold rx_service
  rw [provision_fills _ _ _ h]

/-- Concrete refill: one stale free slot plus two harvested slots, pool
of five buffers — the queue ends with zero free slots. -/
theorem rx_service_no_free_slots_witness :
    (rx_service 2 ⟨1, 5, 3⟩).free_slots = 0 :=
  rx_service_no_free_slots 2 ⟨1, 5, 3⟩ (by decide)

/-- Claim C7: packets offered to `transmit` while the TX virtqueue is
full are all queued, and a later service pass that frees enough slots
submits them to the device in exactly the order they were offered. -/
theorem tx_fifo_order (s : TxState) (ps : List Nat) (freed : Nat)
    (hfree : s.free_slots = 0) (hpend : s.pending = [])
    (hcap : ps.length ≤ s.cap) (hfits : ps.length ≤ freed) :
    (tx_service (transmit_list s ps) freed).submitted = s.submitted ++ ps ∧
    (tx_service (transmit_list s ps) freed).pending = [] := by
  obtain ⟨fs, pend, cap, drops, sub⟩ := s
  simp only at hfree hpend hcap
  subst hfree hpend
  rw [transmit_list_queued _ ps rfl (by simpa using hcap)]
  have hmin : min (0 + freed) ([] ++ ps : List Nat).length = ps.length := by
    simp; omega
  constructor
  · show sub ++ List.take (min (0 + freed) ([] ++ ps : List Nat).length) ([] ++ ps) =
      sub ++ ps
    rw [hmin]
    simp
  · show List.drop (min (0 + freed) ([] ++ ps : List Nat).length) ([] ++ ps) = []
    rw [hmin]
    simp

/-- Concrete FIFO flush: three packets offered to a full queue egress in
offered order once three slots free up. -/
theorem tx_fifo_order_witness :
    (tx_service (transmit_list ⟨0, [], 8, 0, [100]⟩ [1, 2, 3]) 3).submitted =
      [100] ++ [1, 2, 3] ∧
    (tx_service (transmit_list ⟨0, [], 8, 0, [100]⟩ [1, 2, 3]) 3).pending = [] :=
  tx_fifo_order ⟨0, [], 8, 0, [100]⟩ [1, 2, 3] 3 rfl rfl (by decide) (by decide)

/-- Claim C8: with the TX virtqueue full, `transmit` appends the packet
to the pending FIFO when it has room — nothing is dropped and no other
state changes; only when the FIFO is itself full is the packet dropped,
and then the only change is the drop counter increment (counted, not
fatal, nothing submitted). -/
theorem transmit_backpressure (s : TxState) (p : Nat)
    (hfree : s.free_slots = 0) :
    (s.pending.length < s.cap →
      transmit s p = { s with pending := s.pending ++ [p] }) ∧
    (s.cap ≤ s.pending.length →
      transmit s p = { s with drops := s.drops + 1 }) := by
  unfold transmit
  rw [if_neg (by simp [hfree])]
  constructor
  · intro hroom
    rw [if_pos hroom]
  · intro hfull
    rw [if_neg (by omega)]

/-- Concrete backpressure: a full queue with FIFO room queues the packet;
a full queue with a full FIFO counts one drop and changes nothing else. -/
theorem transmit_backpressure_witness :
    transmit ⟨0, [5], 2, 0, []⟩ 7 = ⟨0, [5, 7], 2, 0, []⟩ ∧
    transmit ⟨0, [5, 6], 2, 0, []⟩ 7 = ⟨0, [5, 6], 2, 1, []⟩ :=
  ⟨(transmit_backpressure ⟨0, [5], 2, 0, []⟩ 7 rfl).1 (by decide),
   (transmit_backpressure ⟨0, [5, 6], 2, 0, []⟩ 7 rfl).2 (by decide)⟩

/-- Claim C9: a used descriptor whose header claims a zero payload length
or one exceeding the buffer capacity delivers nothing — the harvest of
the remaining descriptors is unchanged and one more buffer is discarded —
while in general exactly the well-formed descriptors are delivered, in
order, and deliveries plus discards account for every used descriptor. -/
theorem harvest_drops_malformed (d : UsedDesc) (ds : List UsedDesc)
    (hbad : desc_ok d = false) :
    harvest (d :: ds) = ((harvest ds).1, (harvest ds).2 + 1) ∧
    (harvest ds).1 = ds.filter desc_ok ∧
    (harvest ds).1.length + (harvest ds).2 = ds.length := by
  refine ⟨?_, harvest_spec ds⟩
  simp [harvest, hbad]

/-- Concrete malformed harvest: a zero-length header between two good
frames is discarded, both good frames are delivered in order. -/
theorem harvest_drops_malformed_witness :
    harvest (⟨0, 1500⟩ :: [⟨64, 1500⟩, ⟨2000, 1500⟩, ⟨512, 1500⟩]) =
      ((harvest [⟨64, 1500⟩, ⟨2000, 1500⟩, ⟨512, 1500⟩]).1,
       (harvest [⟨64, 1500⟩, ⟨2000, 1500⟩, ⟨512, 1500⟩]).2 + 1) ∧
    (harvest [⟨64, 1500⟩, ⟨2000, 1500⟩, ⟨512, 1500⟩]).1 =
      [⟨64, 1500⟩, ⟨2000, 1500⟩, ⟨512, 1500⟩].filter desc_ok ∧
    (harvest [⟨64, 1500⟩, ⟨2000, 1500⟩, ⟨512, 1500⟩]).1.length +
      (harvest [⟨64, 1500⟩, ⟨2000, 1500⟩, ⟨512, 1500⟩]).2 = 3 :=
  harvest_drops_malformed ⟨0, 1500⟩ [⟨64, 1500⟩, ⟨2000, 1500⟩, ⟨512, 1500⟩]
    (by decide)

/-- Claim C10: the configuration length is the full record size exactly
when multiqueue is negotiated and two bytes shorter otherwise, and
initialization succeeds exactly when the device's configuration length
matches the feature-dependent expectation — otherwise the driver refuses
to come up. -/
theorem config_length_feature_dependent :
    config_length true = sizeof_config ∧
    config_length false = sizeof_config - 2 ∧
    (∀ mq devlen, init_config mq devlen = some devlen ↔
      devlen = config_length mq) ∧
    (∀ mq devlen, init_config mq devlen = none ↔
      devlen ≠ config_length mq) := by
  refine ⟨rfl, rfl, ?_, ?_⟩ <;>
    · intro mq devlen
      unfold init_config
      split <;> simp_all

end VirtioNet
